import Mathlib

/-!
Verification of the Vox AI Studio TTS core against its specification.

The development shallowly embeds the two source files of the repository:
  * `src/src/App.tsx` — the client: the WAV container encoder
    (`createWavUrl`), the synthesis pipeline (`generateSpeech`), the cancel
    handler, the file-upload handler and the mode-selector buttons;
  * `src/server.ts` — the session/credit service: the `GET /api/user` and
    `POST /api/user/deduct` handlers over the in-memory `usersDb`.

JavaScript strings are modelled as Lean `String`, byte buffers as `List Nat`
(each entry a byte value), JavaScript numbers holding credit balances as an
inductive `Credits` distinguishing finite integers from `Infinity`, and
network calls as oracle parameters carrying the call's settled outcome.
-/

namespace VoxTTS

set_option autoImplicit false

/-! ## Byte-level primitives (DataView little-endian writes, `atob`) -/

/-- Little-endian bytes written by `DataView.setUint16` (value taken mod 2^16). -/
def u16le (v : Nat) : List Nat := [v % 256, v / 256 % 256]

/-- Little-endian bytes written by `DataView.setUint32` (value taken mod 2^32). -/
def u32le (v : Nat) : List Nat :=
  [v % 256, v / 256 % 256, v / 65536 % 256, v / 16777216 % 256]

/-- Byte codes written by `writeString` in `createWavUrl`
(`charCodeAt` of each character of an ASCII literal). -/
def ascii (s : String) : List Nat := s.data.map Char.toNat

/-- Read back a little-endian 16-bit value from a byte list at an offset. -/
def readU16le (l : List Nat) (off : Nat) : Nat :=
  l.getD off 0 + 256 * l.getD (off + 1) 0

/-- Read back a little-endian 32-bit value from a byte list at an offset. -/
def readU32le (l : List Nat) (off : Nat) : Nat :=
  l.getD off 0 + 256 * l.getD (off + 1) 0 + 65536 * l.getD (off + 2) 0 +
    16777216 * l.getD (off + 3) 0

/-- Value of one base64 alphabet character, as `atob` reads it. -/
def b64val (c : Char) : Option Nat :=
  if 'A' ≤ c ∧ c ≤ 'Z' then some (c.toNat - 65)
  else if 'a' ≤ c ∧ c ≤ 'z' then some (c.toNat - 97 + 26)
  else if '0' ≤ c ∧ c ≤ '9' then some (c.toNat - 48 + 52)
  else if c = '+' then some 62
  else if c = '/' then some 63
  else none

/-- Groups of four sextets become three bytes; a trailing group of two or
three sextets becomes one or two bytes (forgiving-base64 decode). -/
def sextetsToBytes : List Nat → List Nat
  | a :: b :: c :: d :: rest =>
      (a * 4 + b / 16) :: ((b % 16) * 16 + c / 4) :: ((c % 4) * 64 + d) ::
        sextetsToBytes rest
  | [a, b] => [a * 4 + b / 16]
  | [a, b, c] => [a * 4 + b / 16, (b % 16) * 16 + c / 4]
  | _ => []

/-- ASCII whitespace removal performed by the forgiving-base64 decoder. -/
def b64strip (l : List Char) : List Char :=
  l.filter (fun c => !(c = ' ' || c = '\t' || c = '\n' || c = '\r' || c = '\x0c'))

/-- Model of the browser `atob`: strip ASCII whitespace, accept up to two
trailing padding characters when the length is a multiple of four, reject a
length congruent to 1 mod 4 and any stray padding, then decode sextets.
`none` models the `InvalidCharacterError` exception. -/
def b64decode (s : String) : Option (List Nat) := do
  let cs := b64strip s.data
  let body ←
    if cs.length % 4 == 0 then
      match cs.reverse with
      | '=' :: '=' :: rest => some rest.reverse
      | '=' :: rest => some rest.reverse
      | _ => some cs
    else if cs.length % 4 == 1 then none
    else some cs
  if body.contains '=' then none
  else do
    let vals ← body.mapM b64val
    some (sextetsToBytes vals)

/-! ## The WAV container encoder (`createWavUrl`, src/src/App.tsx lines 30-61) -/

/-- Byte content of the `ArrayBuffer` built by `createWavUrl` from the decoded
PCM bytes: the fixed 44-byte RIFF/WAVE header followed by the sample data,
every multi-byte field little-endian. -/
def wavBytes (bytes : List Nat) (sampleRate : Nat) : List Nat :=
  ascii "RIFF" ++ u32le (36 + bytes.length) ++ ascii "WAVE" ++ ascii "fmt " ++
    u32le 16 ++ u16le 1 ++ u16le 1 ++ u32le sampleRate ++
    u32le (sampleRate * 2) ++ u16le 2 ++ u16le 16 ++ ascii "data" ++
    u32le bytes.length ++ bytes

/-- `createWavUrl(base64, sampleRate = 24000)`: decode the base64 payload with
`atob` (a decode failure throws, modelled by `none`) and wrap the bytes in the
WAV container. The returned value models the byte content of the `Blob`
behind the object URL. -/
def createWavUrl (base64 : String) (sampleRate : Nat := 24000) :
    Option (List Nat) :=
  (b64decode base64).map (fun bytes => wavBytes bytes sampleRate)

/-! ## Credit balances -/

/-- A JavaScript number used as a credit balance: a finite integer or
`Infinity` (the unbounded balance of allow-listed accounts). -/
inductive Credits where
  | fin (n : ℤ)
  | inf
deriving DecidableEq, Repr

/-- `credits < n` for a character count `n`, as JavaScript compares it:
`Infinity < n` is false. -/
def Credits.ltNat : Credits → Nat → Bool
  | .fin b, n => decide (b < (n : ℤ))
  | .inf, _ => false

/-- String interpolation of the balance (`${user.credits}`). -/
def Credits.display : Credits → String
  | .fin b => toString b
  | .inf => "Infinity"

/-! ## The session/credit server (src/server.ts) -/

/-- A record of the in-memory `usersDb`. -/
structure ServerUser where
  email : String
  credits : Credits
  isPremium : Bool
deriving DecidableEq, Repr

/-- `usersDb` as an association list keyed by email. -/
abbrev UsersDb := List (String × ServerUser)

/-- The allow-list of privileged identities (`SPECIAL_EMAILS`). -/
def SPECIAL_EMAILS : List String :=
  ["amliyarsachin248@gmail.com", "amaliyarmanu5@gmail.com",
   "sachinamliyar15@gmail.com", "robotlinkan@gmail.com"]

/-- `usersDb[email]` lookup. -/
def dbLookup (db : UsersDb) (email : String) : Option ServerUser :=
  (db.find? (fun p => p.1 == email)).map (fun p => p.2)

/-- In-place mutation `usersDb[email] = u`. -/
def dbUpdate (db : UsersDb) (email : String) (u : ServerUser) : UsersDb :=
  db.map (fun p => if p.1 == email then (p.1, u) else p)

/-- `GET /api/user`: seeds an unknown identity with 20000 credits, or an
unbounded balance for allow-listed identities; `none` cookie (and the falsy
empty cookie) yields the 401 error. -/
def getUserHandler (db : UsersDb) (cookie : Option String) :
    UsersDb × Except String ServerUser :=
  match cookie with
  | none => (db, .error "Unauthorized")
  | some email =>
    if email = "" then (db, .error "Unauthorized")
    else
      match dbLookup db email with
      | some u => (db, .ok u)
      | none =>
        let isSpecial := SPECIAL_EMAILS.contains email
        let u : ServerUser :=
          { email := email
            credits := if isSpecial then .inf else .fin 20000
            isPremium := isSpecial }
        ((email, u) :: db, .ok u)

/-- `POST /api/user/deduct`: 401 when the cookie is missing (or falsy) or the
user is unknown; otherwise `credits -= amount` unless the balance is
`Infinity`, and the (possibly updated) record is returned. -/
def deductHandler (db : UsersDb) (cookie : Option String) (amount : ℤ) :
    UsersDb × Except String ServerUser :=
  match cookie with
  | none => (db, .error "User not found")
  | some email =>
    if email = "" then (db, .error "User not found")
    else
      match dbLookup db email with
      | none => (db, .error "User not found")
      | some u =>
        match u.credits with
        | .inf => (db, .ok u)
        | .fin b =>
          let u' : ServerUser := { u with credits := .fin (b - amount) }
          (dbUpdate db email u', .ok u')

/-! ## Client data model (src/src/App.tsx) -/

/-- The active synthesis mode (`'tts' | 'voice_changer' | 'dubbing'`). -/
inductive SynthesisMode where
  | tts
  | voiceChanger
  | dubbing
deriving DecidableEq, Repr

/-- One entry of the static `VOICES` catalog. -/
structure Voice where
  id : String
  name : String
  description : String
  gender : String
  tags : List String
deriving DecidableEq, Repr

/-- The `File` object picked in the upload input: metadata plus the base64
payload the `FileReader` produces for it (the part after the comma of the
data URL). -/
structure FileInfo where
  name : String
  type : String
  size : Nat
  base64 : String
deriving DecidableEq, Repr

/-- The `uploadedAudio` state value `{ file, base64, mimeType }`. -/
structure UploadedAudio where
  file : FileInfo
  base64 : String
  mimeType : String
deriving DecidableEq, Repr

/-- The authenticated user as cached by the client (`{email, credits,
isPremium}`). -/
structure Account where
  email : String
  credits : Credits
  isPremium : Bool
deriving DecidableEq, Repr

/-- A `HistoryItem` as appended by the success branch; `audioUrl` is modelled
by the byte content of the blob behind the object URL. -/
structure HistoryItem where
  id : String
  text : String
  voice : String
  audioUrl : List Nat
  timestamp : Nat
deriving DecidableEq, Repr

/-- The React state fields of `App` that the synthesis pipeline reads or
writes. -/
structure AppState where
  user : Option Account
  text : String
  history : List HistoryItem
  error : Option String
  showMonetization : Bool
  audioUrl : Option (List Nat)
  isGenerating : Bool
  loadingStatus : Option String
  mode : SynthesisMode
  uploadedAudio : Option UploadedAudio
  targetLanguage : String
  selectedVoice : Voice
deriving DecidableEq, Repr

/-- A thrown JavaScript `Error`, as the catch blocks observe it. -/
structure JsError where
  name : String
  message : String
deriving DecidableEq, Repr

/-- How the `Promise.race` between the synthesis call and the abort signal
settles: the response resolves first (carrying the extracted
`candidates[0].content.parts[0].inlineData.data`, which may be absent), the
response rejects first, or the abort signal fires first — in which case the
network call's eventual outcome is carried along only to record that it is
discarded. -/
inductive RaceResult where
  | settled (payload : Option String)
  | failed (e : JsError)
  | aborted (eventual : Except JsError (Option String))
deriving Repr

/-- The outcome `generateSpeech` observes from the race: an abort firing
first rejects with `new Error('AbortError')` — a generic `Error` whose `name`
is `"Error"` and whose `message` is `"AbortError"` — regardless of how the
superseded network call eventually settles. -/
def raceOutcome : RaceResult → Except JsError (Option String)
  | .settled payload => .ok payload
  | .failed e => .error e
  | .aborted _ => .error { name := "Error", message := "AbortError" }

/-- Result of one `generateSpeech` invocation: the final state plus the
observable effects — amounts posted to `/api/user/deduct`, the number of
synthesis calls issued, the number of transcription/translation calls issued,
and whether the login flow was triggered. -/
structure GenResult where
  state : AppState
  deducts : List Nat
  synthCalls : Nat
  composeCalls : Nat
  loginCalled : Bool
deriving DecidableEq, Repr

/-! ## String helpers mirroring the JavaScript operations -/

/-- `pat` is a prefix of `l` (character-by-character comparison). -/
def listStartsWith : List Char → List Char → Bool
  | [], _ => true
  | _ :: _, [] => false
  | p :: ps, c :: cs => p == c && listStartsWith ps cs

/-- `s.includes(pat)`: case-sensitive substring containment. -/
def strIncludes (s pat : String) : Bool :=
  (List.range (s.data.length + 1)).any (fun i => listStartsWith pat.data (s.data.drop i))

/-- The JavaScript `s.trim()`: whitespace removed from both ends. -/
def jsTrim (s : String) : String :=
  String.mk (((s.data.dropWhile Char.isWhitespace).reverse.dropWhile
    Char.isWhitespace).reverse)

/-- The 80-character history truncation:
`t.length > 80 ? t.substring(0, 80) + '...' : t`. -/
def truncate80 (t : String) : String :=
  if t.length > 80 then String.mk (t.data.take 80) ++ "..." else t

/-! ## generateSpeech (src/src/App.tsx lines 218-375) -/

/-- The character ceiling `MAX_CHARS`. -/
def MAX_CHARS : Nat := 20000

/-- Error message thrown when the provider returns no audio payload. -/
def emptyResponseMsg : String :=
  "The AI model returned an empty response. Please try again with shorter text or a different voice."

/-- Message shown for rate/quota exhaustion. -/
def quotaMsg : String :=
  "API Quota Exceeded (429): Your API key has reached its limit. Please wait a minute or check your Google Cloud billing."

/-- Fallback message when the thrown error carries an empty message. -/
def connectionFailedMsg : String :=
  "Connection failed. Please check your internet or API key."

/-- The exception `atob` throws on malformed base64 (its exact message is
runtime-defined; only its classification matters here). -/
def atobError : JsError :=
  { name := "InvalidCharacterError", message := "Invalid base64 string" }

/-- The catch block of `generateSpeech`: an error recognized as a
cancellation is logged and swallowed; a message containing a quota marker
yields the quota message; anything else surfaces `err.message` (or the
connection-failed fallback when the message is empty). -/
def handleCatch (st : AppState) (e : JsError) : AppState :=
  if e.name == "AbortError" || strIncludes e.message "abort" then st
  else if strIncludes e.message "429" || strIncludes e.message "RESOURCE_EXHAUSTED"
      || strIncludes e.message "quota" then
    { st with error := some quotaMsg }
  else
    { st with error := some (if e.message = "" then connectionFailedMsg else e.message) }

/-- The `finally` block: `setIsGenerating(false); setLoadingStatus(null)`. -/
def finallyBlock (st : AppState) : AppState :=
  { st with isGenerating := false, loadingStatus := none }

/-- The mode-dependent composition stage (lines 224-270 up to the blank
check): for `voice_changer`/`dubbing` it requires an upload, issues the
transcription/translation call (whose settled outcome is the oracle
`comp` — `.error msg` models a rejected call, `.ok t?` the resolved
`textResponse.text`, possibly undefined) and pushes the composed text into
the text area; for `tts` it simply passes the current text through.
`.error r` is an early return; `.ok (s1, processingText, composeCalls)`
continues into authorization. -/
def composePhase (s : AppState) (comp : Except String (Option String)) :
    Except GenResult (AppState × String × Nat) :=
  if s.mode ≠ SynthesisMode.tts then
    match s.uploadedAudio with
    | none =>
      .error { state := { s with error := some "Please upload an audio file first." }
               deducts := [], synthCalls := 0, composeCalls := 0, loginCalled := false }
    | some _ =>
      let s1 := { s with
        isGenerating := true
        loadingStatus := some (if s.mode = SynthesisMode.dubbing
          then "Translating audio..." else "Analyzing audio...")
        error := none }
      match comp with
      | .error msg =>
        .error { state := { s1 with
                   error := some ("Failed to process audio file. " ++ msg)
                   isGenerating := false, loadingStatus := none }
                 deducts := [], synthCalls := 0, composeCalls := 1, loginCalled := false }
      | .ok payload =>
        if jsTrim (payload.getD "") = "" then
          .error { state := { s1 with
                     error := some "Failed to process audio file. Could not extract speech from audio."
                     isGenerating := false, loadingStatus := none }
                   deducts := [], synthCalls := 0, composeCalls := 1, loginCalled := false }
        else
          .ok ({ s1 with text := payload.getD "" }, payload.getD "", 1)
  else
    .ok (s, s.text, 0)

/-- The in-flight stage (lines 291-374): the synthesis call raced against the
abort signal, the success branch (deduct, encode, prepend history), the empty
response, the decode failure and the catch/finally handling. Returns the
final state together with the deduct amounts posted. -/
def runSynthesis (s2 : AppState) (user : Account) (processingText : String)
    (race : RaceResult) (newId : String) (now : Nat) : AppState × List Nat :=
  match raceOutcome race with
  | .ok payload =>
    let base64Audio := payload.getD ""
    if base64Audio = "" then
      (finallyBlock (handleCatch s2 { name := "Error", message := emptyResponseMsg }), [])
    else
      let ded : List Nat :=
        if user.credits = Credits.inf then [] else [processingText.length]
      match b64decode base64Audio with
      | some bytes =>
        let wav := wavBytes bytes 24000
        let newItem : HistoryItem :=
          { id := newId
            text := truncate80 processingText
            voice := s2.selectedVoice.name
            audioUrl := wav
            timestamp := now }
        (finallyBlock { s2 with
           audioUrl := some wav
           history := newItem :: s2.history }, ded)
      | none =>
        (finallyBlock (handleCatch s2 atobError), ded)
  | .error e =>
    (finallyBlock (handleCatch s2 e), [])

/-- The validation and authorization stage (lines 265-289) followed by the
in-flight stage: blank check, character ceiling, credit check (skipped when
the balance is `Infinity`), then the synthesis call. -/
def authorize (s1 : AppState) (user : Account) (processingText : String)
    (composeCalls : Nat) (race : RaceResult) (newId : String) (now : Nat) :
    GenResult :=
  if jsTrim processingText = "" then
    { state := { s1 with
        error := some "Text is empty."
        isGenerating := false, loadingStatus := none }
      deducts := [], synthCalls := 0, composeCalls := composeCalls, loginCalled := false }
  else if processingText.length > MAX_CHARS then
    { state := { s1 with
        error := some ("Text exceeds the " ++ toString MAX_CHARS ++ " character limit.")
        isGenerating := false, loadingStatus := none }
      deducts := [], synthCalls := 0, composeCalls := composeCalls, loginCalled := false }
  else if user.credits ≠ Credits.inf ∧ user.credits.ltNat processingText.length then
    { state := { s1 with
        error := some ("Insufficient credits. You need " ++ toString processingText.length
          ++ " credits but have " ++ user.credits.display ++ ". Please upgrade to Premium.")
        showMonetization := true
        isGenerating := false, loadingStatus := none }
      deducts := [], synthCalls := 0, composeCalls := composeCalls, loginCalled := false }
  else
    let s2 := { s1 with
      isGenerating := true
      loadingStatus := some "Generating AI voice..."
      error := none }
    let res := runSynthesis s2 user processingText race newId now
    { state := res.1, deducts := res.2, synthCalls := 1
      composeCalls := composeCalls, loginCalled := false }

/-- `generateSpeech`: trigger login and halt when unauthenticated, otherwise
compose, authorize and run the synthesis. `newId` and `now` are the random
history id and `Date.now()` observed in the success branch. -/
def generateSpeech (s : AppState) (comp : Except String (Option String))
    (race : RaceResult) (newId : String) (now : Nat) : GenResult :=
  match s.user with
  | none =>
    { state := s, deducts := [], synthCalls := 0, composeCalls := 0, loginCalled := true }
  | some user =>
    match composePhase s comp with
    | .error r => r
    | .ok (s1, processingText, composeCalls) =>
      authorize s1 user processingText composeCalls race newId now

/-! ## The remaining UI handlers the claims mention -/

/-- `handleCancel` (lines 377-384): aborting when a controller is live only
resets the generating flags; it never touches history, credits or the error
field. -/
def handleCancel (s : AppState) (hasLiveController : Bool) : AppState :=
  if hasLiveController then { s with isGenerating := false, loadingStatus := none } else s

/-- A click on one of the mode-selector buttons (lines 470-489): the handlers
call `setMode` and nothing else. -/
def modeButtonClick (s : AppState) (m : SynthesisMode) : AppState :=
  { s with mode := m }

/-- `handleFileUpload` (lines 166-182): no-op without a file; an oversized
file only sets an error; otherwise the uploaded audio is replaced with the
new file's data. -/
def handleFileUpload (s : AppState) (file : Option FileInfo) : AppState :=
  match file with
  | none => s
  | some f =>
    if f.size > 50 * 1024 * 1024 then
      { s with error := some "File size exceeds 50MB limit." }
    else
      { s with uploadedAudio := some { file := f, base64 := f.base64, mimeType := f.type } }

/-! ## Concrete sample values used by witnesses and counterexamples -/

/-- A sample voice playing the role of `VOICES[0]`. -/
def sampleVoice : Voice :=
  { id := "Puck", name := "VoxAI Frank (Friend Style)"
    description := "A friendly conversational voice.", gender := "Male"
    tags := ["friendly"] }

/-- A sample authenticated, non-privileged account holding `c` credits. -/
def sampleUser (c : Credits) : Account :=
  { email := "user@example.com", credits := c, isPremium := false }

/-- A baseline app state: authenticated with 20000 credits, text-to-speech
mode, text `"Hello world"`. -/
def baseState : AppState :=
  { user := some (sampleUser (.fin 20000))
    text := "Hello world"
    history := []
    error := none
    showMonetization := false
    audioUrl := none
    isGenerating := false
    loadingStatus := none
    mode := .tts
    uploadedAudio := none
    targetLanguage := "Hindi"
    selectedVoice := sampleVoice }

/-- A sample uploaded file and the stored upload value derived from it. -/
def sampleFile : FileInfo :=
  { name := "clip.mp3", type := "audio/mpeg", size := 1024, base64 := "AAAA" }

/-- The stored `uploadedAudio` value for `sampleFile`. -/
def sampleUpload : UploadedAudio :=
  { file := sampleFile, base64 := "AAAA", mimeType := "audio/mpeg" }

/-! ## Helper lemmas -/

/-- Updating an existing key of `usersDb` makes later lookups see the new
record. -/
theorem dbLookup_dbUpdate_self (db : UsersDb) (email : String) (u u' : ServerUser)
    (h : dbLookup db email = some u) :
    dbLookup (dbUpdate db email u') email = some u' := by
  induction db with
  | nil => simp [dbLookup] at h
  | cons hd tl ih =>
    by_cases hh : (hd.1 == email) = true
    · simp [dbLookup, dbUpdate, List.find?, hh]
    · have hneg : (hd.1 == email) = false := by
        simpa using hh
      have e1 : dbLookup (hd :: tl) email = dbLookup tl email := by
        simp [dbLookup, List.find?, hneg]
      have e2 : dbUpdate (hd :: tl) email u' = hd :: dbUpdate tl email u' := by
        simp only [dbUpdate, List.map_cons]
        rw [if_neg hh]
      have e3 : dbLookup (hd :: dbUpdate tl email u') email
          = dbLookup (dbUpdate tl email u') email := by
        simp [dbLookup, List.find?, hneg]
      rw [e1] at h
      rw [e2, e3]
      exact ih h

/-! ## C1 — deduct floors the balance at zero (refuted: no floor exists) -/

/-- C1 counterexample: a non-privileged account holding 5 credits, deducted
by 10, ends at balance exactly `-5` — the service does not floor the new
balance at zero, so the balance does go negative. -/
theorem c1_counterexample_negative_balance :
    (deductHandler [("u@example.com", ⟨"u@example.com", .fin 5, false⟩)]
        (some "u@example.com") 10).2
      = .ok ⟨"u@example.com", .fin (-5), false⟩ ∧
    dbLookup (deductHandler [("u@example.com", ⟨"u@example.com", .fin 5, false⟩)]
        (some "u@example.com") 10).1 "u@example.com"
      = some ⟨"u@example.com", .fin (-5), false⟩ ∧
    ¬ (0 : ℤ) ≤ -5 :=
  ⟨rfl, by decide, by decide⟩

/-- C1 (amended): a deduct on an unbounded/privileged account leaves the
balance (and the whole database) unchanged; a deduct of `amount` on a
non-privileged account with balance `b` sets the stored and returned balance
to exactly `b - amount`, with no floor at zero. -/
theorem c1_amended_deduct_exact (db : UsersDb) (email : String) (u : ServerUser)
    (amount : ℤ) (hemail : email ≠ "") (h : dbLookup db email = some u) :
    (u.credits = Credits.inf →
      deductHandler db (some email) amount = (db, .ok u)) ∧
    (∀ b : ℤ, u.credits = Credits.fin b →
      (deductHandler db (some email) amount).2
          = .ok { u with credits := .fin (b - amount) } ∧
      dbLookup (deductHandler db (some email) amount).1 email
          = some { u with credits := .fin (b - amount) }) := by
  constructor
  · intro hinf
    simp [deductHandler, hemail, h, hinf]
  · intro b hb
    have e : deductHandler db (some email) amount
        = (dbUpdate db email { u with credits := .fin (b - amount) },
           .ok { u with credits := .fin (b - amount) }) := by
      simp [deductHandler, hemail, h, hb]
    rw [e]
    exact ⟨rfl, dbLookup_dbUpdate_self db email u _ h⟩

/-- C1 amended witness: the concrete overdraft deduct from the
counterexample, obtained through the amended theorem. -/
theorem c1_amended_witness :
    (deductHandler [("u@example.com", ⟨"u@example.com", .fin 5, false⟩)]
        (some "u@example.com") 10).2
      = .ok ⟨"u@example.com", .fin (-5), false⟩ ∧
    dbLookup (deductHandler [("u@example.com", ⟨"u@example.com", .fin 5, false⟩)]
        (some "u@example.com") 10).1 "u@example.com"
      = some ⟨"u@example.com", .fin (-5), false⟩ :=
  (c1_amended_deduct_exact
      [("u@example.com", ⟨"u@example.com", .fin 5, false⟩)] "u@example.com"
      ⟨"u@example.com", .fin 5, false⟩ 10 (by decide) (by decide)).2 5 rfl

/-! ## C10 — deduct applies the raw amount with no validation -/

/-- C10: the deduct endpoint applies the requested amount to an existing
non-privileged account with no validation of sign or magnitude: the new
balance is exactly `b - amount`, so a negative amount strictly increases the
balance. -/
theorem c10_deduct_unvalidated (db : UsersDb) (email : String) (u : ServerUser)
    (b amount : ℤ) (hemail : email ≠ "") (h : dbLookup db email = some u)
    (hb : u.credits = Credits.fin b) :
    (deductHandler db (some email) amount).2
        = .ok { u with credits := .fin (b - amount) } ∧
    dbLookup (deductHandler db (some email) amount).1 email
        = some { u with credits := .fin (b - amount) } ∧
    (amount < 0 → b < b - amount) := by
  have e : deductHandler db (some email) amount
      = (dbUpdate db email { u with credits := .fin (b - amount) },
         .ok { u with credits := .fin (b - amount) }) := by
    simp [deductHandler, hemail, h, hb]
  rw [e]
  exact ⟨rfl, dbLookup_dbUpdate_self db email u _ h, fun hneg => by omega⟩

/-- C10 witness: deducting `-7` from a balance of 5 raises the stored balance
to 12. -/
theorem c10_witness :
    (deductHandler [("u@example.com", ⟨"u@example.com", .fin 5, false⟩)]
        (some "u@example.com") (-7)).2
      = .ok ⟨"u@example.com", .fin 12, false⟩ ∧
    dbLookup (deductHandler [("u@example.com", ⟨"u@example.com", .fin 5, false⟩)]
        (some "u@example.com") (-7)).1 "u@example.com"
      = some ⟨"u@example.com", .fin 12, false⟩ ∧
    ((-7 : ℤ) < 0 → (5 : ℤ) < 5 - -7) :=
  c10_deduct_unvalidated
    [("u@example.com", ⟨"u@example.com", .fin 5, false⟩)] "u@example.com"
    ⟨"u@example.com", .fin 5, false⟩ 5 (-7) (by decide) (by decide) rfl

/-- The container buffer as a flat byte list: the append-free normal form of
`wavBytes`, used to read header fields off fixed offsets. -/
def wavBytesConsForm (bytes : List Nat) (r : Nat) : List Nat :=
  82 :: 73 :: 70 :: 70
    :: (36 + bytes.length) % 256 :: (36 + bytes.length) / 256 % 256
    :: (36 + bytes.length) / 65536 % 256 :: (36 + bytes.length) / 16777216 % 256
    :: 87 :: 65 :: 86 :: 69 :: 102 :: 109 :: 116 :: 32
    :: 16 :: 0 :: 0 :: 0 :: 1 :: 0 :: 1 :: 0
    :: r % 256 :: r / 256 % 256 :: r / 65536 % 256 :: r / 16777216 % 256
    :: r * 2 % 256 :: r * 2 / 256 % 256 :: r * 2 / 65536 % 256
    :: r * 2 / 16777216 % 256
    :: 2 :: 0 :: 16 :: 0 :: 100 :: 97 :: 116 :: 97
    :: bytes.length % 256 :: bytes.length / 256 % 256
    :: bytes.length / 65536 % 256 :: bytes.length / 16777216 % 256
    :: bytes

/-- `wavBytes` agrees with its flat normal form. -/
theorem wavBytes_cons (bytes : List Nat) (r : Nat) :
    wavBytes bytes r = wavBytesConsForm bytes r := by
  have hA1 : ascii "RIFF" = [82, 73, 70, 70] := by decide
  have hA2 : ascii "WAVE" = [87, 65, 86, 69] := by decide
  have hA3 : ascii "fmt " = [102, 109, 116, 32] := by decide
  have hA4 : ascii "data" = [100, 97, 116, 97] := by decide
  simp only [wavBytes, wavBytesConsForm, hA1, hA2, hA3, hA4, u32le, u16le,
    List.cons_append, List.nil_append, List.append_assoc]

/-! ## C2 — WAV container layout -/

/-- C2: on every base64 input that decodes to `bytes` (of length `L`) and
every sample rate `r` (with `36 + L` and `r * 2` representable in 32 bits),
`createWavUrl` produces a container of exactly `L + 44` bytes whose header
holds, little-endian: chunk size `36 + L` at offset 4, format tag 1 at 20,
channel count 1 at 22, sample rate `r` at 24, byte rate `r * 2` at 28, block
align 2 at 32, bits per sample 16 at 34, and data length `L` at 40. -/
theorem c2_wav_container_header (s : String) (r : Nat) (bytes : List Nat)
    (hdec : b64decode s = some bytes)
    (hL : 36 + bytes.length < 4294967296) (hr : r * 2 < 4294967296) :
    createWavUrl s r = some (wavBytes bytes r) ∧
    (wavBytes bytes r).length = bytes.length + 44 ∧
    readU32le (wavBytes bytes r) 4 = 36 + bytes.length ∧
    readU16le (wavBytes bytes r) 20 = 1 ∧
    readU16le (wavBytes bytes r) 22 = 1 ∧
    readU32le (wavBytes bytes r) 24 = r ∧
    readU32le (wavBytes bytes r) 28 = r * 2 ∧
    readU16le (wavBytes bytes r) 32 = 2 ∧
    readU16le (wavBytes bytes r) 34 = 16 ∧
    readU32le (wavBytes bytes r) 40 = bytes.length := by
  refine ⟨by simp [createWavUrl, hdec], ?_, ?_, ?_, ?_, ?_, ?_, ?_, ?_, ?_⟩
  · rw [wavBytes_cons]
    simp [wavBytesConsForm]
  · rw [wavBytes_cons]
    have e : readU32le (wavBytesConsForm bytes r) 4
        = (36 + bytes.length) % 256 + 256 * ((36 + bytes.length) / 256 % 256)
          + 65536 * ((36 + bytes.length) / 65536 % 256)
          + 16777216 * ((36 + bytes.length) / 16777216 % 256) := rfl
    rw [e]; omega
  · rw [wavBytes_cons]; rfl
  · rw [wavBytes_cons]; rfl
  · rw [wavBytes_cons]
    have e : readU32le (wavBytesConsForm bytes r) 24
        = r % 256 + 256 * (r / 256 % 256) + 65536 * (r / 65536 % 256)
          + 16777216 * (r / 16777216 % 256) := rfl
    rw [e]; omega
  · rw [wavBytes_cons]
    have e : readU32le (wavBytesConsForm bytes r) 28
        = r * 2 % 256 + 256 * (r * 2 / 256 % 256) + 65536 * (r * 2 / 65536 % 256)
          + 16777216 * (r * 2 / 16777216 % 256) := rfl
    rw [e]; omega
  · rw [wavBytes_cons]; rfl
  · rw [wavBytes_cons]; rfl
  · rw [wavBytes_cons]
    have e : readU32le (wavBytesConsForm bytes r) 40
        = bytes.length % 256 + 256 * (bytes.length / 256 % 256)
          + 65536 * (bytes.length / 65536 % 256)
          + 16777216 * (bytes.length / 16777216 % 256) := rfl
    rw [e]; omega

/-- C2 witness: the payload `"AAAA"` decodes to three zero bytes and yields a
47-byte container whose data-length field reads back 3. -/
theorem c2_witness :
    createWavUrl "AAAA" 24000 = some (wavBytes [0, 0, 0] 24000) ∧
    (wavBytes [0, 0, 0] 24000).length = 3 + 44 ∧
    readU32le (wavBytes [0, 0, 0] 24000) 40 = 3 :=
  have h := c2_wav_container_header "AAAA" 24000 [0, 0, 0] rfl (by decide) (by decide)
  ⟨h.1, h.2.1, h.2.2.2.2.2.2.2.2.2⟩

/-! ## C8 — encoding is deterministic at the byte level -/

/-- C8: two invocations of `createWavUrl` on the same base64 payload and
sample rate settle on byte-identical container buffers. -/
theorem c8_encode_deterministic (s : String) (r : Nat) (b1 b2 : List Nat)
    (h1 : createWavUrl s r = some b1) (h2 : createWavUrl s r = some b2) :
    b1 = b2 := by
  rw [h1] at h2
  exact Option.some.inj h2

/-- C8 witness: the two buffers produced for `"AAAA"` at 24000 Hz coincide. -/
theorem c8_witness :
    wavBytes [0, 0, 0] 24000 = wavBytes [0, 0, 0] 24000 :=
  c8_encode_deterministic "AAAA" 24000 _ _ rfl rfl

/-! ## Pipeline helper lemmas -/

/-- A successful composition stage preserves the history, the selected voice
and the cached user. -/
theorem composePhase_ok_fields (s : AppState) (comp : Except String (Option String))
    (s1 : AppState) (t : String) (cc : Nat)
    (h : composePhase s comp = .ok (s1, t, cc)) :
    s1.history = s.history ∧ s1.selectedVoice = s.selectedVoice ∧ s1.user = s.user := by
  unfold composePhase at h
  repeat' split at h
  all_goals
    first
      | (simp only [Except.ok.injEq, Prod.mk.injEq] at h
         obtain ⟨h1, h2, h3⟩ := h
         subst h1
         simp)
      | exact absurd h (by simp)

/-- A composition stage that returns early issues no deduct and no synthesis
call and leaves the history unchanged. -/
theorem composePhase_error_fields (s : AppState) (comp : Except String (Option String))
    (r : GenResult) (h : composePhase s comp = .error r) :
    r.deducts = [] ∧ r.synthCalls = 0 ∧ r.state.history = s.history := by
  unfold composePhase at h
  repeat' split at h
  all_goals
    first
      | (simp only [Except.error.injEq] at h
         subst h
         simp)
      | exact absurd h (by simp)

/-- The abort rejection `new Error('AbortError')` is not recognized by the
catch block's classification (its `name` is `"Error"` and its message does
not contain the lowercase `"abort"`), so the generic handler surfaces its
message. -/
theorem handleCatch_abortErr (st : AppState) :
    handleCatch st { name := "Error", message := "AbortError" }
      = { st with error := some "AbortError" } := by
  have b1 : (("Error" : String) == "AbortError") = false := by decide
  have b2 : strIncludes "AbortError" "abort" = false := by decide
  have b3 : strIncludes "AbortError" "429" = false := by decide
  have b4 : strIncludes "AbortError" "RESOURCE_EXHAUSTED" = false := by decide
  have b5 : strIncludes "AbortError" "quota" = false := by decide
  simp [handleCatch, b1, b2, b3, b4, b5]

/-- When the abort signal wins the race, the in-flight stage issues no
deduct, prepends nothing, and — because the classification misses the abort
rejection — sets the error field to the rejection's message, independently of
how the superseded call eventually settles. -/
theorem runSynthesis_aborted (s2 : AppState) (u : Account) (t : String)
    (ev : Except JsError (Option String)) (newId : String) (now : Nat) :
    runSynthesis s2 u t (.aborted ev) newId now
      = (finallyBlock { s2 with error := some "AbortError" }, []) := by
  rw [show runSynthesis s2 u t (.aborted ev) newId now
      = (finallyBlock (handleCatch s2 { name := "Error", message := "AbortError" }), [])
    from rfl]
  rw [handleCatch_abortErr]

/-- The success branch of the in-flight stage: with a non-empty payload that
decodes, it encodes the container, prepends exactly one history item, and
posts exactly one deduct of the text's length unless the balance is
`Infinity`. -/
theorem runSynthesis_success (s2 : AppState) (u : Account) (t p : String)
    (bytes : List Nat) (newId : String) (now : Nat)
    (hp : p ≠ "") (hb : b64decode p = some bytes) :
    runSynthesis s2 u t (.settled (some p)) newId now
      = (finallyBlock { s2 with
           audioUrl := some (wavBytes bytes 24000)
           history := { id := newId, text := truncate80 t,
                        voice := s2.selectedVoice.name,
                        audioUrl := wavBytes bytes 24000,
                        timestamp := now } :: s2.history },
         if u.credits = Credits.inf then [] else [t.length]) := by
  simp [runSynthesis, raceOutcome, hp, hb]

/-- Abort-race facts about the authorization stage: no deduct, history
untouched, and the result does not depend on how the superseded call would
eventually have settled. -/
theorem authorize_aborted (s1 : AppState) (u : Account) (t : String) (cc : Nat)
    (ev ev' : Except JsError (Option String)) (newId : String) (now : Nat) :
    (authorize s1 u t cc (.aborted ev) newId now).deducts = [] ∧
    (authorize s1 u t cc (.aborted ev) newId now).state.history = s1.history ∧
    authorize s1 u t cc (.aborted ev) newId now
      = authorize s1 u t cc (.aborted ev') newId now := by
  by_cases h1 : jsTrim t = ""
  · simp [authorize, h1]
  · by_cases h2 : t.length > MAX_CHARS
    · simp [authorize, h1, h2]
    · by_cases h3 : u.credits ≠ Credits.inf ∧ u.credits.ltNat t.length
      · simp [authorize, h1, h2, h3]
      · simp [authorize, h1, h2, h3, runSynthesis_aborted, finallyBlock]

/-- A text of `n` copies of the letter a: the concrete inputs sitting at the
character ceiling. -/
def bigText (n : Nat) : String := String.mk (List.replicate n 'a')

/-- The length of `bigText n` is `n`. -/
theorem bigText_length (n : Nat) : (bigText n).length = n := by
  show (List.replicate n 'a').length = n
  simp

/-- `bigText n` carries no surrounding whitespace. -/
theorem jsTrim_bigText (n : Nat) : jsTrim (bigText n) = bigText n := by
  cases n with
  | zero => rfl
  | succ m =>
    have hws : Char.isWhitespace 'a' = false := by decide
    have h1 : List.dropWhile Char.isWhitespace (List.replicate (m + 1) 'a')
        = List.replicate (m + 1) 'a' := by
      rw [List.replicate_succ, List.dropWhile_cons]
      simp [hws]
    have hdata : (bigText (m + 1)).data = List.replicate (m + 1) 'a' := rfl
    unfold jsTrim
    rw [hdata, h1, List.reverse_replicate, h1, List.reverse_replicate]
    rfl

/-- A nonempty `bigText` survives the blank check. -/
theorem jsTrim_bigText_ne_empty (n : Nat) (h : 0 < n) : jsTrim (bigText n) ≠ "" := by
  rw [jsTrim_bigText]
  intro hc
  have hl := bigText_length n
  rw [hc] at hl
  simp only [show ("" : String).length = 0 from rfl] at hl
  omega

/-! ## C3 — success bookkeeping: one history entry, one deduct -/

/-- C3: on a successful synthesis (the race settles with a non-empty payload
that decodes), exactly one `HistoryItem` is prepended to the history, and
exactly one deduct of the composed text's character count is posted — none at
all when the balance is `Infinity`, while the history entry is still
prepended. -/
theorem c3_success_bookkeeping (s : AppState) (u : Account)
    (comp : Except String (Option String)) (s1 : AppState) (t : String) (cc : Nat)
    (p : String) (bytes : List Nat) (newId : String) (now : Nat)
    (hu : s.user = some u)
    (hres : composePhase s comp = .ok (s1, t, cc))
    (ht : ¬ jsTrim t = "") (hlen : t.length ≤ MAX_CHARS)
    (hcr : ¬(u.credits ≠ Credits.inf ∧ u.credits.ltNat t.length)) (hp : p ≠ "")
    (hb : b64decode p = some bytes) :
    (generateSpeech s comp (.settled (some p)) newId now).state.history
        = { id := newId, text := truncate80 t, voice := s.selectedVoice.name,
            audioUrl := wavBytes bytes 24000, timestamp := now } :: s.history ∧
    (u.credits ≠ Credits.inf →
      (generateSpeech s comp (.settled (some p)) newId now).deducts = [t.length]) ∧
    (u.credits = Credits.inf →
      (generateSpeech s comp (.settled (some p)) newId now).deducts = []) ∧
    (generateSpeech s comp (.settled (some p)) newId now).synthCalls = 1 := by
  obtain ⟨hh, hv, _⟩ := composePhase_ok_fields s comp s1 t cc hres
  have hlen' : ¬ t.length > MAX_CHARS := by omega
  simp only [generateSpeech, hu, hres]
  simp only [authorize, if_neg ht, if_neg hlen', if_neg hcr]
  rw [runSynthesis_success _ u t p bytes newId now hp hb]
  refine ⟨?_, fun hne => ?_, fun hinf => ?_, ?_⟩
  · simp [finallyBlock, hh, hv]
  · simp [if_neg hne]
  · simp [if_pos hinf]
  · trivial

/-- C3 witness: `"Hello world"` (11 characters) with a decodable payload:
one history entry and one deduct of 11 for the finite account; still one
history entry but no deduct for the unbounded account. -/
theorem c3_witness :
    ((generateSpeech baseState (.ok none) (.settled (some "AAAA")) "id1" 42).state.history
        = { id := "id1", text := truncate80 "Hello world",
            voice := baseState.selectedVoice.name,
            audioUrl := wavBytes [0, 0, 0] 24000, timestamp := 42 } :: baseState.history ∧
      (generateSpeech baseState (.ok none) (.settled (some "AAAA")) "id1" 42).deducts
        = [("Hello world" : String).length]) ∧
    ((generateSpeech { baseState with user := some (sampleUser .inf) }
          (.ok none) (.settled (some "AAAA")) "id1" 42).state.history
        = { id := "id1", text := truncate80 "Hello world",
            voice := baseState.selectedVoice.name,
            audioUrl := wavBytes [0, 0, 0] 24000, timestamp := 42 }
            :: ({ baseState with user := some (sampleUser .inf) } : AppState).history ∧
      (generateSpeech { baseState with user := some (sampleUser .inf) }
          (.ok none) (.settled (some "AAAA")) "id1" 42).deducts = []) := by
  have h1 := c3_success_bookkeeping baseState (sampleUser (.fin 20000)) (.ok none)
    baseState "Hello world" 0 "AAAA" [0, 0, 0] "id1" 42 rfl rfl (by decide) (by decide)
    (by decide) (by decide) rfl
  have h2 := c3_success_bookkeeping { baseState with user := some (sampleUser .inf) }
    (sampleUser .inf) (.ok none) { baseState with user := some (sampleUser .inf) }
    "Hello world" 0 "AAAA" [0, 0, 0] "id1" 42 rfl rfl (by decide) (by decide)
    (by decide) (by decide) rfl
  exact ⟨⟨h1.1, h1.2.1 (by decide)⟩, ⟨h2.1, h2.2.2.1 rfl⟩⟩

/-! ## C4 — cancellation leaves history and credits untouched -/

/-- C4: when the abort signal fires before the synthesis call settles, no
history entry is appended, no deduct is posted, and the outcome is
independent of how the discarded network call would eventually have
settled. -/
theorem c4_cancel_no_mutation (s : AppState) (comp : Except String (Option String))
    (ev : Except JsError (Option String)) (newId : String) (now : Nat) :
    (generateSpeech s comp (.aborted ev) newId now).deducts = [] ∧
    (generateSpeech s comp (.aborted ev) newId now).state.history = s.history ∧
    ∀ ev' : Except JsError (Option String),
      generateSpeech s comp (.aborted ev) newId now
        = generateSpeech s comp (.aborted ev') newId now := by
  cases hu : s.user with
  | none => simp [generateSpeech, hu]
  | some u =>
    cases hres : composePhase s comp with
    | error r =>
      obtain ⟨hd, _, hh⟩ := composePhase_error_fields s comp r hres
      simp [generateSpeech, hu, hres, hd, hh]
    | ok trip =>
      obtain ⟨s1, t, cc⟩ := trip
      obtain ⟨hh, _, _⟩ := composePhase_ok_fields s comp s1 t cc hres
      simp only [generateSpeech, hu, hres]
      refine ⟨(authorize_aborted s1 u t cc ev ev newId now).1, ?_, fun ev' =>
        (authorize_aborted s1 u t cc ev ev' newId now).2.2⟩
      rw [(authorize_aborted s1 u t cc ev ev newId now).2.1, hh]

/-! ## C5 — cancellation is not silent: the classification misses it -/

/-- C5 (code bug evaluation): the abort path rejects with
`new Error('AbortError')`, whose `name` is `"Error"` and whose message does
not contain the lowercase `"abort"`; the classification therefore fails and
the pipeline sets the visible error message `"AbortError"` instead of staying
silent. -/
theorem c5_cancel_sets_error_banner :
    raceOutcome (.aborted (.ok (some "AAAA")))
        = .error { name := "Error", message := "AbortError" } ∧
    ((({ name := "Error", message := "AbortError" } : JsError).name == "AbortError")
        || strIncludes "AbortError" "abort") = false ∧
    (generateSpeech baseState (.ok none) (.aborted (.ok (some "AAAA"))) "id1" 42).state.error
        = some "AbortError" :=
  ⟨rfl, by decide, by decide⟩

/-! ## C6 — the 20000-character ceiling -/

/-- C6: a composed text of exactly 20001 characters is rejected after
composition with the ceiling error, no synthesis call is issued and the
history is untouched; one of exactly 20000 characters passes the length check
and (credits permitting) the synthesis call is issued — in every mode, since
the composition stage is quantified over. -/
theorem c6_char_ceiling :
    (∀ (s : AppState) (u : Account) (comp : Except String (Option String))
        (s1 : AppState) (t : String) (cc : Nat) (race : RaceResult)
        (newId : String) (now : Nat),
      s.user = some u → composePhase s comp = .ok (s1, t, cc) →
      ¬ jsTrim t = "" → t.length = 20001 →
      (generateSpeech s comp race newId now).state.error
          = some "Text exceeds the 20000 character limit." ∧
      (generateSpeech s comp race newId now).synthCalls = 0 ∧
      (generateSpeech s comp race newId now).state.history = s.history ∧
      (generateSpeech s comp race newId now).composeCalls = cc) ∧
    (∀ (s : AppState) (u : Account) (comp : Except String (Option String))
        (s1 : AppState) (t : String) (cc : Nat) (race : RaceResult)
        (newId : String) (now : Nat),
      s.user = some u → composePhase s comp = .ok (s1, t, cc) →
      ¬ jsTrim t = "" → t.length = 20000 →
      ¬(u.credits ≠ Credits.inf ∧ u.credits.ltNat t.length) →
      (generateSpeech s comp race newId now).synthCalls = 1) := by
  constructor
  · intro s u comp s1 t cc race newId now hu hres ht hlen
    obtain ⟨hh, _, _⟩ := composePhase_ok_fields s comp s1 t cc hres
    have hgt : t.length > MAX_CHARS := by
      rw [hlen]; decide
    have hmsg : "Text exceeds the " ++ toString MAX_CHARS ++ " character limit."
        = "Text exceeds the 20000 character limit." := by decide
    simp only [generateSpeech, hu, hres]
    simp only [authorize, if_neg ht, if_pos hgt]
    refine ⟨?_, ?_, ?_, ?_⟩
    · rw [hmsg]
    · trivial
    · exact hh
    · trivial
  · intro s u comp s1 t cc race newId now hu hres ht hlen hcr
    have hgt : ¬ t.length > MAX_CHARS := by
      rw [hlen]; decide
    simp only [generateSpeech, hu, hres]
    simp only [authorize, if_neg ht, if_neg hgt, if_neg hcr]

/-- C6 witness: 20001 letters are rejected with the ceiling message and no
synthesis call; 20000 letters pass and the synthesis call is issued. -/
theorem c6_witness :
    ((generateSpeech { baseState with text := bigText 20001 } (.ok none)
          (.settled (some "AAAA")) "id1" 42).state.error
        = some "Text exceeds the 20000 character limit." ∧
      (generateSpeech { baseState with text := bigText 20001 } (.ok none)
          (.settled (some "AAAA")) "id1" 42).synthCalls = 0) ∧
    (generateSpeech { baseState with text := bigText 20000 } (.ok none)
        (.settled (some "AAAA")) "id1" 42).synthCalls = 1 := by
  have h1 := c6_char_ceiling.1 { baseState with text := bigText 20001 }
    (sampleUser (.fin 20000)) (.ok none) { baseState with text := bigText 20001 }
    (bigText 20001) 0 (.settled (some "AAAA")) "id1" 42 rfl rfl
    (jsTrim_bigText_ne_empty 20001 (by decide)) (bigText_length 20001)
  have h2 := c6_char_ceiling.2 { baseState with text := bigText 20000 }
    (sampleUser (.fin 20000)) (.ok none) { baseState with text := bigText 20000 }
    (bigText 20000) 0 (.settled (some "AAAA")) "id1" 42 rfl rfl
    (jsTrim_bigText_ne_empty 20000 (by decide)) (bigText_length 20000)
    (by
      rintro ⟨-, hlt⟩
      rw [bigText_length] at hlt
      exact absurd hlt (by decide))
  exact ⟨⟨h1.1, h1.2.1⟩, h2⟩

/-! ## C7 — the credit check -/

/-- C7: a finite cached balance smaller than the composed text's character
count fails with the insufficient-credit message, surfaces the upgrade
prompt, issues no synthesis call and leaves history untouched; an `Infinity`
balance skips the check and the synthesis call is issued. -/
theorem c7_credit_check :
    (∀ (s : AppState) (u : Account) (comp : Except String (Option String))
        (s1 : AppState) (t : String) (cc : Nat) (b : ℤ) (race : RaceResult)
        (newId : String) (now : Nat),
      s.user = some u → composePhase s comp = .ok (s1, t, cc) →
      ¬ jsTrim t = "" → t.length ≤ MAX_CHARS → u.credits = Credits.fin b →
      b < (t.length : ℤ) →
      (generateSpeech s comp race newId now).state.error
          = some ("Insufficient credits. You need " ++ toString t.length
              ++ " credits but have " ++ toString b
              ++ ". Please upgrade to Premium.") ∧
      (generateSpeech s comp race newId now).state.showMonetization = true ∧
      (generateSpeech s comp race newId now).synthCalls = 0 ∧
      (generateSpeech s comp race newId now).state.history = s.history) ∧
    (∀ (s : AppState) (u : Account) (comp : Except String (Option String))
        (s1 : AppState) (t : String) (cc : Nat) (race : RaceResult)
        (newId : String) (now : Nat),
      s.user = some u → composePhase s comp = .ok (s1, t, cc) →
      ¬ jsTrim t = "" → t.length ≤ MAX_CHARS → u.credits = Credits.inf →
      (generateSpeech s comp race newId now).synthCalls = 1) := by
  constructor
  · intro s u comp s1 t cc b race newId now hu hres ht hlen hb hlt
    obtain ⟨hh, _, _⟩ := composePhase_ok_fields s comp s1 t cc hres
    have hgt : ¬ t.length > MAX_CHARS := by omega
    have hcr : u.credits ≠ Credits.inf ∧ u.credits.ltNat t.length := by
      rw [hb]
      exact ⟨by simp, by simp [Credits.ltNat, hlt]⟩
    simp only [generateSpeech, hu, hres]
    simp only [authorize, if_neg ht, if_neg hgt, if_pos hcr]
    refine ⟨?_, ?_, ?_, ?_⟩
    · rw [hb]
      rfl
    · trivial
    · trivial
    · exact hh
  · intro s u comp s1 t cc race newId now hu hres ht hlen hinf
    have hgt : ¬ t.length > MAX_CHARS := by omega
    have hcr : ¬(u.credits ≠ Credits.inf ∧ u.credits.ltNat t.length) := by
      rintro ⟨hne, -⟩
      exact hne hinf
    simp only [generateSpeech, hu, hres]
    simp only [authorize, if_neg ht, if_neg hgt, if_neg hcr]

/-- C7 witness: 5 credits against 11 characters shows the insufficient-credit
message with the upgrade prompt and no synthesis call; the unbounded account
proceeds to the synthesis call. -/
theorem c7_witness :
    ((generateSpeech { baseState with user := some (sampleUser (.fin 5)) }
          (.ok none) (.settled (some "AAAA")) "id1" 42).state.error
        = some "Insufficient credits. You need 11 credits but have 5. Please upgrade to Premium." ∧
      (generateSpeech { baseState with user := some (sampleUser (.fin 5)) }
          (.ok none) (.settled (some "AAAA")) "id1" 42).state.showMonetization = true ∧
      (generateSpeech { baseState with user := some (sampleUser (.fin 5)) }
          (.ok none) (.settled (some "AAAA")) "id1" 42).synthCalls = 0) ∧
    (generateSpeech { baseState with user := some (sampleUser .inf) }
        (.ok none) (.settled (some "AAAA")) "id1" 42).synthCalls = 1 := by
  have h1 := c7_credit_check.1 { baseState with user := some (sampleUser (.fin 5)) }
    (sampleUser (.fin 5)) (.ok none) { baseState with user := some (sampleUser (.fin 5)) }
    "Hello world" 0 5 (.settled (some "AAAA")) "id1" 42 rfl rfl (by decide) (by decide)
    rfl (by decide)
  have h2 := c7_credit_check.2 { baseState with user := some (sampleUser .inf) }
    (sampleUser .inf) (.ok none) { baseState with user := some (sampleUser .inf) }
    "Hello world" 0 (.settled (some "AAAA")) "id1" 42 rfl rfl (by decide) (by decide) rfl
  refine ⟨⟨?_, h1.2.1, h1.2.2.1⟩, h2⟩
  rw [h1.1]
  rfl

/-! ## C9 — mode switches do not clear the uploaded audio -/

/-- A state holding an uploaded clip in voice-changer mode. -/
def uploadState : AppState :=
  { baseState with mode := .voiceChanger, uploadedAudio := some sampleUpload }

/-- C9 counterexample: clicking another mode-selector button leaves the
stored uploaded audio in place — it is not cleared as the claim requires. -/
theorem c9_counterexample_mode_switch_keeps_upload :
    (modeButtonClick uploadState .dubbing).uploadedAudio = some sampleUpload ∧
    (modeButtonClick uploadState .dubbing).uploadedAudio ≠ none :=
  ⟨rfl, by decide⟩

/-- C9 (amended): the uploaded audio is held until replaced by a new
(size-admissible) file selection; a mode switch leaves it unchanged. -/
theorem c9_amended_upload_retention :
    (∀ (s : AppState) (m : SynthesisMode),
      (modeButtonClick s m).uploadedAudio = s.uploadedAudio) ∧
    (∀ (s : AppState) (f : FileInfo), f.size ≤ 50 * 1024 * 1024 →
      (handleFileUpload s (some f)).uploadedAudio
        = some { file := f, base64 := f.base64, mimeType := f.type }) := by
  constructor
  · intro s m
    rfl
  · intro s f hf
    have hgt : ¬ f.size > 50 * 1024 * 1024 := by omega
    simp [handleFileUpload, hgt]

/-- C9 amended witness: switching the upload-holding state to dubbing keeps
the clip; uploading the sample file stores it. -/
theorem c9_amended_witness :
    (modeButtonClick uploadState .dubbing).uploadedAudio = uploadState.uploadedAudio ∧
    (handleFileUpload baseState (some sampleFile)).uploadedAudio
      = some { file := sampleFile, base64 := sampleFile.base64,
               mimeType := sampleFile.type } :=
  ⟨c9_amended_upload_retention.1 uploadState .dubbing,
   c9_amended_upload_retention.2 baseState sampleFile (by decide)⟩

end VoxTTS
